import Mathlib

set_option autoImplicit false

namespace Tutorials

/-- File descriptor from src/src/app/tutorials/CodeEditor.tsx (class
FileWithContent of the WebContainer service): a path together with the text
content it is seeded with. -/
structure FileWithContent where
  file : String
  initialContent : String
  deriving DecidableEq

/-- Workspace Descriptor from src/src/app/tutorials/CodeEditor.tsx (class
Workspace of the WebContainer service): a name, the seed files, and the subset
of paths that are of interest for editing. -/
structure Workspace where
  name : String
  files : List FileWithContent
  filesOfInterest : List String
  deriving DecidableEq

/-- The statically constructed descriptor `effectWorkspace` of
src/src/app/tutorials/CodeEditor.tsx lines 9-23.  Its seed content is the
result of the JSON.stringify call on lines 14-19, and its `filesOfInterest`
list is empty (line 22). -/
def effectWorkspace : Workspace :=
  { name := "effect"
    files := [{ file := "package.json"
                initialContent := "\x7b\"dependencies\":\x7b\"effect\":\"latest\",\"tsx\":\"latest\"\x7d\x7d" }]
    filesOfInterest := [] }

/-- Modelled from the spec: the descriptor of Scenario A (spec section 8),
`\x7bname:"effect", seedFiles:[("package.json", json)], filesOfInterest:["package.json"]\x7d`,
which differs from the `effectWorkspace` value in the source by marking
`package.json` as a file of interest. -/
def scenarioAWorkspace : Workspace :=
  { name := "effect"
    files := [{ file := "package.json"
                initialContent := "\x7b\"dependencies\":\x7b\"effect\":\"latest\"\x7d\x7d" }]
    filesOfInterest := ["package.json"] }

/-- Modelled from the spec: the boot state machine of a Sandbox Session
(spec section 3 and 4.2), `Booting | Ready | Failed`, where `Failed` retains
the failure cause. -/
inductive SessionState where
  | booting
  | ready
  | failed (cause : String)
  deriving DecidableEq

/-- Modelled from the spec: the settlement signal of a write or of a
projection (spec sections 4.2 and 7): pending writes settle to success or
failure, and a write against a Session that is not `Ready` is refused with an
"unavailable" signal. -/
inductive WriteResult where
  | success
  | unavailable
  | failure (cause : String)
  deriving DecidableEq

/-- Association-list lookup keyed by `String`, returning the first binding. -/
def assocFind {α : Type} : List (String × α) → String → Option α
  | [], _ => none
  | (k, v) :: rest, key => if k = key then some v else assocFind rest key

/-- Association-list update keyed by `String`: replaces the first binding of
the key, or appends a new binding when the key is absent. -/
def assocSet {α : Type} : List (String × α) → String → α → List (String × α)
  | [], key, v => [(key, v)]
  | (k, w) :: rest, key, v =>
      if k = key then (key, v) :: rest else (k, w) :: assocSet rest key v

/-- Association-list removal keyed by `String`: drops every binding of the
key. -/
def assocRemove {α : Type} (l : List (String × α)) (key : String) : List (String × α) :=
  l.filter (fun kv => decide (kv.1 ≠ key))

theorem assocFind_assocSet_self {α : Type} (l : List (String × α)) (k : String) (v : α) :
    assocFind (assocSet l k v) k = some v := by
  induction l with
  | nil => simp [assocSet, assocFind]
  | cons hd tl ih =>
      obtain ⟨k0, v0⟩ := hd
      by_cases h : k0 = k
      · simp [assocSet, assocFind, h]
      · simp [assocSet, assocFind, h, ih]

theorem assocFind_assocRemove_self {α : Type} (l : List (String × α)) (k : String) :
    assocFind (assocRemove l k) k = none := by
  induction l with
  | nil => simp [assocRemove, assocFind]
  | cons hd tl ih =>
      obtain ⟨k0, v0⟩ := hd
      by_cases h : k0 = k
      · simpa [assocRemove, assocFind, h] using ih
      · simpa [assocRemove, assocFind, h] using ih

/-- Modelled from the spec: a Sandbox Session (spec section 3), bound to one
Workspace Descriptor: the boot state, the live file table seeded from the
descriptor's files, and the identifier of its interactive process. -/
structure Session where
  workspace : Workspace
  state : SessionState
  liveFiles : List (String × String)
  processId : Nat
  deriving DecidableEq

/-- Modelled from the spec: creation of a fresh Session (spec section 3):
state `Booting`, `liveFiles` seeded from `seedFiles`. -/
def newSession (w : Workspace) (pid : Nat) : Session :=
  { workspace := w
    state := SessionState.booting
    liveFiles := w.files.map (fun f => (f.file, f.initialContent))
    processId := pid }

/-- Modelled from the spec: the outcome of one boot sequence (spec section
4.2): either every step succeeds, or a mount / install / process-attach step
fails with a cause. -/
inductive BootOutcome where
  | success
  | mountError (cause : String)
  | installError (cause : String)
  | attachError (cause : String)
  deriving DecidableEq

/-- Modelled from the spec: settling a boot attempt (spec section 4.2):
success transitions `Booting → Ready`, any failing step transitions
`Booting → Failed` retaining the cause. -/
def bootStep (s : Session) (o : BootOutcome) : Session :=
  match o with
  | BootOutcome.success => { s with state := SessionState.ready }
  | BootOutcome.mountError c => { s with state := SessionState.failed c }
  | BootOutcome.installError c => { s with state := SessionState.failed c }
  | BootOutcome.attachError c => { s with state := SessionState.failed c }

/-- Modelled from the spec: `write(path, content)` (spec sections 4.2 and 5):
valid only once `Ready`, in which case it updates `liveFiles[path]`; a write
to a `Failed` or still-`Booting` Session fails immediately with an
"unavailable" signal, leaving the Session unchanged. -/
def write (s : Session) (path content : String) : WriteResult × Session :=
  match s.state with
  | SessionState.ready =>
      (WriteResult.success, { s with liveFiles := assocSet s.liveFiles path content })
  | _ => (WriteResult.unavailable, s)

/-- C3: for every Session in state Ready and every path in `filesOfInterest`,
writing `content` to that path and then reading `liveFiles[path]` returns
exactly `content`. -/
theorem write_then_read (s : Session) (p content : String)
    (hready : s.state = SessionState.ready)
    (hinterest : p ∈ s.workspace.filesOfInterest) :
    assocFind (write s p content).2.liveFiles p = some content := by
  simp [write, hready, assocFind_assocSet_self]

/-- Session used by concrete scenarios: the Scenario A workspace, booted to
`Ready`. -/
def scenarioAReady : Session :=
  bootStep (newSession scenarioAWorkspace 0) BootOutcome.success

/-- Witness for C3, following Scenario B of the spec: writing
`'\x7b"dependencies":\x7b\x7d\x7d'` to `package.json` on the ready Scenario A
Session and reading `liveFiles["package.json"]` yields that exact content. -/
theorem write_then_read_witness :
    scenarioAReady.state = SessionState.ready ∧
    "package.json" ∈ scenarioAReady.workspace.filesOfInterest ∧
    assocFind (write scenarioAReady "package.json" "\x7b\"dependencies\":\x7b\x7d\x7d").2.liveFiles
      "package.json" = some "\x7b\"dependencies\":\x7b\x7d\x7d" :=
  ⟨rfl, by decide,
    write_then_read scenarioAReady "package.json" "\x7b\"dependencies\":\x7b\x7d\x7d" rfl (by decide)⟩

/-- C4: a write against a Session that is still Booting or has Failed returns
the "unavailable" signal immediately and leaves the Session (in particular its
`liveFiles`) unchanged — nothing is queued. -/
theorem write_unavailable (s : Session) (p content : String)
    (h : s.state = SessionState.booting ∨ ∃ c, s.state = SessionState.failed c) :
    (write s p content).1 = WriteResult.unavailable ∧ (write s p content).2 = s := by
  rcases h with h | ⟨c, h⟩ <;> simp [write, h]

/-- Witness for C4: a write against the still-booting "effect" Session is
refused as unavailable and changes nothing. -/
theorem write_unavailable_witness :
    ((newSession effectWorkspace 0).state = SessionState.booting ∨
      ∃ c, (newSession effectWorkspace 0).state = SessionState.failed c) ∧
    (write (newSession effectWorkspace 0) "package.json" "x").1 = WriteResult.unavailable ∧
    (write (newSession effectWorkspace 0) "package.json" "x").2 = newSession effectWorkspace 0 :=
  ⟨Or.inl rfl,
    (write_unavailable (newSession effectWorkspace 0) "package.json" "x" (Or.inl rfl)).1,
    (write_unavailable (newSession effectWorkspace 0) "package.json" "x" (Or.inl rfl)).2⟩

/-- Reactive result value from the effect-rx library used on lines 26-27 and
61 of src/src/app/tutorials/CodeEditor.tsx: a projection is initially pending,
then settles to a success value or a failure cause; failures are values, never
exceptions. -/
inductive RxResult (α : Type) where
  | initial
  | success (value : α)
  | failure (cause : String)
  deriving DecidableEq

/-- File pair exposed by the files projection: the file handle together with
the path its write capability closes over (the capability is
`write(path, ·)` of the owning Session, so the fixed path identifies it). -/
abbrev FilePair := FileWithContent × String

/-- Modelled from the spec: the memoized `(fileHandle, writeCapability)` list
of `projectFiles` (spec sections 3 and 4.3): one pair per path in
`filesOfInterest`, whose handle is the seed file of that path. -/
def sessionFiles (w : Workspace) : List FilePair :=
  w.filesOfInterest.filterMap
    (fun p => (w.files.find? (fun f => decide (f.file = p))).map (fun f => (f, p)))

/-- Modelled from the spec: the observable state of the files projection
(spec sections 4.3 and 7): pending while the Session boots, the memoized pair
list once `Ready`, and the captured cause once `Failed` — reported as a value,
never thrown. -/
def sessionFilesResult (s : Session) : RxResult (List FilePair) :=
  match s.state with
  | SessionState.booting => RxResult.initial
  | SessionState.ready => RxResult.success (sessionFiles s.workspace)
  | SessionState.failed c => RxResult.failure c

/-- Terminal handle bound to a Session's process: which render target (if
any) the process output stream is currently attached to, and the log of
`(target, chunk)` deliveries made so far. -/
structure TerminalHandle where
  attached : Option Nat
  delivered : List (Nat × String)
  deriving DecidableEq

/-- Fresh terminal handle: constructed lazily, not yet attached to any render
target, nothing delivered. -/
def initialTerminal : TerminalHandle :=
  { attached := none, delivered := [] }

/-- Modelled from the spec: the observable state of the terminal projection
(spec sections 4.3 and 7): pending while the Session boots, the lazily
constructed handle once `Ready`, and the captured cause once `Failed` —
reported as a value, never thrown. -/
def sessionTerminalResult (s : Session) : RxResult TerminalHandle :=
  match s.state with
  | SessionState.booting => RxResult.initial
  | SessionState.ready => RxResult.success initialTerminal
  | SessionState.failed c => RxResult.failure c

/-- C5: a boot failure (here a mount error) is captured as state: the Session
becomes `Failed` with the cause, and both the files projection and the
terminal projection report that failure as an observable value (the projection
functions are total — nothing is thrown across the reactive boundary). -/
theorem boot_failure_captured (s : Session) (cause : String) :
    (bootStep s (BootOutcome.mountError cause)).state = SessionState.failed cause ∧
    sessionFilesResult (bootStep s (BootOutcome.mountError cause)) = RxResult.failure cause ∧
    sessionTerminalResult (bootStep s (BootOutcome.mountError cause)) = RxResult.failure cause := by
  refine ⟨rfl, ?_, ?_⟩ <;> simp [bootStep, sessionFilesResult, sessionTerminalResult]

/-- Modelled from the spec: a cache slot of the Session cache (spec sections
4.2 and 9): the Session together with its observer count. -/
structure CacheEntry where
  session : Session
  refCount : Nat
  deriving DecidableEq

/-- Modelled from the spec: the reactive layer's per-identity cache (spec
sections 4.3, 5 and 9): Sessions keyed by Workspace name, the memoized files
projection per name, the number of boot sequences ever started, a fresh
process-id source, and the record of terminated processes. -/
structure Cache where
  entries : List (String × CacheEntry)
  filesMemo : List (String × List FilePair)
  bootCount : Nat
  nextPid : Nat
  killedPids : List Nat
  deriving DecidableEq

/-- Cache before any UI interaction: empty. -/
def emptyCache : Cache :=
  { entries := [], filesMemo := [], bootCount := 0, nextPid := 0, killedPids := [] }

/-- Modelled from the spec: `acquire(descriptor)` (spec sections 4.2 and 5):
returns the cached Session for the descriptor's identity when one exists
(incrementing its observer count, starting no second boot), and otherwise
creates a fresh `Booting` Session, starting exactly one boot sequence. -/
def Cache.acquire (c : Cache) (w : Workspace) : Session × Cache :=
  match assocFind c.entries w.name with
  | some e =>
      (e.session,
        { c with entries := assocSet c.entries w.name { e with refCount := e.refCount + 1 } })
  | none =>
      (newSession w c.nextPid,
        { c with
            entries := assocSet c.entries w.name
              { session := newSession w c.nextPid, refCount := 1 }
            bootCount := c.bootCount + 1
            nextPid := c.nextPid + 1 })

/-- Modelled from the spec: settling the (single) boot sequence of the cached
Session of a given identity (spec section 4.2). -/
def Cache.settleBoot (c : Cache) (name : String) (o : BootOutcome) : Cache :=
  match assocFind c.entries name with
  | some e =>
      { c with entries := assocSet c.entries name { e with session := bootStep e.session o } }
  | none => c

/-- Modelled from the spec: `release()` (spec section 4.2): decrements the
observer count; when it reaches zero, kills the process (recorded in
`killedPids`) and removes the Session and its memoized projection from the
cache. -/
def Cache.release (c : Cache) (name : String) : Cache :=
  match assocFind c.entries name with
  | some e =>
      if e.refCount ≤ 1 then
        { c with
            entries := assocRemove c.entries name
            filesMemo := assocRemove c.filesMemo name
            killedPids := c.killedPids ++ [e.session.processId] }
      else
        { c with entries := assocSet c.entries name { e with refCount := e.refCount - 1 } }
  | none => c

/-- Modelled from the spec: `projectFiles(descriptor)` (spec section 4.3):
acquires the Session (memoized per identity) and returns the memoized
`(fileHandle, writeCapability)` list, constructing it at most once per
identity. -/
def Cache.projectFiles (c : Cache) (w : Workspace) : List FilePair × Cache :=
  match assocFind (c.acquire w).2.filesMemo w.name with
  | some fs => (fs, (c.acquire w).2)
  | none =>
      (sessionFiles w,
        { (c.acquire w).2 with
            filesMemo := assocSet (c.acquire w).2.filesMemo w.name (sessionFiles w) })

theorem acquire_filesMemo (c : Cache) (w : Workspace) :
    (c.acquire w).2.filesMemo = c.filesMemo := by
  unfold Cache.acquire
  cases h : assocFind c.entries w.name <;> simp

theorem acquire_acquire (c : Cache) (w : Workspace) :
    ((c.acquire w).2.acquire w).1 = (c.acquire w).1 ∧
    ((c.acquire w).2.acquire w).2.bootCount = (c.acquire w).2.bootCount ∧
    ((c.acquire w).2.acquire w).2.filesMemo = (c.acquire w).2.filesMemo := by
  unfold Cache.acquire
  cases h : assocFind c.entries w.name <;>
    simp [assocFind_assocSet_self]

theorem acquire_bootCount_le (c : Cache) (w : Workspace) :
    (c.acquire w).2.bootCount ≤ c.bootCount + 1 := by
  unfold Cache.acquire
  cases h : assocFind c.entries w.name <;> simp

theorem projectFiles_memo (c : Cache) (w : Workspace) :
    assocFind (c.projectFiles w).2.filesMemo w.name = some (c.projectFiles w).1 ∧
    (c.projectFiles w).2.entries = (c.acquire w).2.entries ∧
    (c.projectFiles w).2.bootCount = (c.acquire w).2.bootCount := by
  unfold Cache.projectFiles
  cases h : assocFind (c.acquire w).2.filesMemo w.name <;>
    simp [h, assocFind_assocSet_self]

theorem acquire_entry_exists (c : Cache) (w : Workspace) :
    ∃ e, assocFind (c.acquire w).2.entries w.name = some e ∧ e.session = (c.acquire w).1 := by
  unfold Cache.acquire
  cases h : assocFind c.entries w.name with
  | none =>
      refine ⟨{ session := newSession w c.nextPid, refCount := 1 }, ?_, ?_⟩
      · simp [assocFind_assocSet_self]
      · simp
  | some e =>
      refine ⟨{ e with refCount := e.refCount + 1 }, ?_, ?_⟩
      · simp [assocFind_assocSet_self]
      · simp

theorem acquire_existing (c : Cache) (w : Workspace) (e : CacheEntry)
    (h : assocFind c.entries w.name = some e) :
    (c.acquire w).1 = e.session ∧ (c.acquire w).2.bootCount = c.bootCount := by
  unfold Cache.acquire
  simp [h]

theorem acquire_absent (c : Cache) (w : Workspace)
    (h : assocFind c.entries w.name = none) :
    (c.acquire w).1 = newSession w c.nextPid ∧
    (c.acquire w).2.bootCount = c.bootCount + 1 := by
  unfold Cache.acquire
  simp [h]

theorem projectFiles_of_find (c : Cache) (w : Workspace) (fs : List FilePair)
    (h : assocFind (c.acquire w).2.filesMemo w.name = some fs) :
    c.projectFiles w = (fs, (c.acquire w).2) := by
  unfold Cache.projectFiles
  rw [h]

/-- C2: the files projection is memoized per Workspace identity — invoking it
twice returns the same list and the same underlying Session, the second
invocation starts no boot, a pair of invocations starts at most one boot in
total, and `acquire` itself is idempotent (a second overlapping `acquire`
returns the same Session instance without starting a second boot). -/
theorem files_projection_memoized (c : Cache) (w : Workspace) :
    ((c.projectFiles w).2.projectFiles w).1 = (c.projectFiles w).1 ∧
    ((c.projectFiles w).2.acquire w).1 = (c.acquire w).1 ∧
    ((c.projectFiles w).2.projectFiles w).2.bootCount = (c.projectFiles w).2.bootCount ∧
    (c.projectFiles w).2.bootCount ≤ c.bootCount + 1 ∧
    ((c.acquire w).2.acquire w).1 = (c.acquire w).1 ∧
    ((c.acquire w).2.acquire w).2.bootCount = (c.acquire w).2.bootCount := by
  obtain ⟨e, he, hes⟩ := acquire_entry_exists c w
  obtain ⟨hmemo, hent, hboot⟩ := projectFiles_memo c w
  have hfind2 : assocFind ((c.projectFiles w).2.acquire w).2.filesMemo w.name =
      some (c.projectFiles w).1 := by
    rw [acquire_filesMemo]
    exact hmemo
  have hsecond := projectFiles_of_find (c.projectFiles w).2 w (c.projectFiles w).1 hfind2
  have he1 : assocFind (c.projectFiles w).2.entries w.name = some e := by
    rw [hent]; exact he
  have ha1 := acquire_existing (c.projectFiles w).2 w e he1
  have ha2 := acquire_existing (c.acquire w).2 w e he
  refine ⟨?_, ?_, ?_, ?_, ?_, ?_⟩
  · rw [hsecond]
  · rw [ha1.1, hes]
  · rw [hsecond]
    exact ha1.2
  · rw [hboot]
    exact acquire_bootCount_le c w
  · exact (acquire_acquire c w).1
  · exact ha2.2

/-- Counterexample to C1: the `effectWorkspace` value actually constructed on
lines 9-23 of src/src/app/tutorials/CodeEditor.tsx has an empty
`filesOfInterest` list, so the files projection returns zero
`(fileHandle, writeCapability)` pairs, not one. -/
theorem effectWorkspace_files_empty :
    (emptyCache.projectFiles effectWorkspace).1 = [] ∧
    (emptyCache.projectFiles effectWorkspace).1.length ≠ 1 := by
  decide

/-- C1 (amended): the files projection yields one pair per path in
`filesOfInterest`; for the source's `effectWorkspace`, whose
`filesOfInterest` is empty, it yields zero pairs, while for the Scenario A
descriptor, which marks `package.json` as of interest, it yields exactly one
pair whose handle carries the seed content of `package.json`. -/
theorem projectFiles_pairs :
    (emptyCache.projectFiles effectWorkspace).1 = [] ∧
    (emptyCache.projectFiles scenarioAWorkspace).1 =
      [({ file := "package.json"
          initialContent := "\x7b\"dependencies\":\x7b\"effect\":\"latest\"\x7d\x7d" },
        "package.json")] := by
  decide

/-- C8: releasing the last observer of a Ready Session kills its process
(recorded in `killedPids`) and removes the Session from the cache; a
subsequent `acquire` with the same descriptor starts a new boot and returns a
fresh `Booting` Session whose process is a new one, never the terminated
process. -/
theorem release_then_reacquire (c : Cache) (w : Workspace) (e : CacheEntry)
    (hfind : assocFind c.entries w.name = some e)
    (hone : e.refCount = 1)
    (hready : e.session.state = SessionState.ready)
    (hpid : e.session.processId < c.nextPid) :
    assocFind (c.release w.name).entries w.name = none ∧
    e.session.processId ∈ (c.release w.name).killedPids ∧
    ((c.release w.name).acquire w).1.state = SessionState.booting ∧
    ((c.release w.name).acquire w).1.processId ≠ e.session.processId ∧
    ((c.release w.name).acquire w).2.bootCount = c.bootCount + 1 := by
  have hr : c.release w.name =
      { c with
          entries := assocRemove c.entries w.name
          filesMemo := assocRemove c.filesMemo w.name
          killedPids := c.killedPids ++ [e.session.processId] } := by
    unfold Cache.release
    rw [hfind]
    simp [hone]
  have hnone : assocFind (c.release w.name).entries w.name = none := by
    rw [hr]
    exact assocFind_assocRemove_self c.entries w.name
  have habs := acquire_absent (c.release w.name) w hnone
  refine ⟨hnone, ?_, ?_, ?_, ?_⟩
  · rw [hr]; simp
  · rw [habs.1]
    simp [newSession]
  · rw [habs.1]
    simp [newSession, hr]
    omega
  · rw [habs.2, hr]

/-- Cache of the concrete C8 scenario: the "effect" workspace acquired once
from the empty cache and booted to `Ready`. -/
def bootedEffectCache : Cache :=
  ((emptyCache.acquire effectWorkspace).2).settleBoot "effect" BootOutcome.success

/-- Cache entry held by `bootedEffectCache` for the "effect" identity. -/
def bootedEffectEntry : CacheEntry :=
  { session := bootStep (newSession effectWorkspace 0) BootOutcome.success
    refCount := 1 }

/-- Witness for C8: on the concrete booted "effect" cache, releasing the sole
observer removes and kills the Session, and re-acquiring boots a fresh
`Booting` Session with a different process. -/
theorem release_then_reacquire_witness :
    (assocFind bootedEffectCache.entries effectWorkspace.name = some bootedEffectEntry ∧
      bootedEffectEntry.refCount = 1 ∧
      bootedEffectEntry.session.state = SessionState.ready ∧
      bootedEffectEntry.session.processId < bootedEffectCache.nextPid) ∧
    (assocFind (bootedEffectCache.release effectWorkspace.name).entries effectWorkspace.name = none ∧
      bootedEffectEntry.session.processId ∈
        (bootedEffectCache.release effectWorkspace.name).killedPids ∧
      ((bootedEffectCache.release effectWorkspace.name).acquire effectWorkspace).1.state =
        SessionState.booting ∧
      ((bootedEffectCache.release effectWorkspace.name).acquire effectWorkspace).1.processId ≠
        bootedEffectEntry.session.processId ∧
      ((bootedEffectCache.release effectWorkspace.name).acquire effectWorkspace).2.bootCount =
        bootedEffectCache.bootCount + 1) :=
  ⟨⟨by decide, rfl, rfl, by decide⟩,
    release_then_reacquire bootedEffectCache effectWorkspace bootedEffectEntry
      (by decide) rfl rfl (by decide)⟩

/-- Modelled from the spec: `attach(renderTarget)` (spec section 4.3, used as
`terminal.value.open(ref.current)` on line 66 of
src/src/app/tutorials/CodeEditor.tsx): binds the process output stream to a
render target, detaching from any previous target first, so at most one
target is live at any time. -/
def attach (t : TerminalHandle) (target : Nat) : TerminalHandle :=
  { t with attached := some target }

/-- Modelled from the spec: push-based delivery of one process output chunk
(spec section 5): the chunk is delivered to the currently attached render
target, if any. -/
def deliver (t : TerminalHandle) (chunk : String) : TerminalHandle :=
  match t.attached with
  | some target => { t with delivered := t.delivered ++ [(target, chunk)] }
  | none => t

/-- Delivery of a whole produced sequence of output chunks, in order. -/
def deliverAll (t : TerminalHandle) (chunks : List String) : TerminalHandle :=
  chunks.foldl deliver t

/-- Sequence of chunks a given render target has received from the handle, in
delivery order. -/
def receivedBy (target : Nat) (t : TerminalHandle) : List String :=
  (t.delivered.filter (fun q => decide (q.1 = target))).map Prod.snd

theorem deliverAll_attached (t : TerminalHandle) (target : Nat) (chunks : List String)
    (h : t.attached = some target) :
    (deliverAll t chunks).attached = some target ∧
    (deliverAll t chunks).delivered = t.delivered ++ chunks.map (fun ch => (target, ch)) := by
  induction chunks generalizing t with
  | nil => simp [deliverAll, h]
  | cons ch rest ih =>
      have hstep : deliver t ch = { t with delivered := t.delivered ++ [(target, ch)] } := by
        simp [deliver, h]
      have hatt : (deliver t ch).attached = some target := by
        rw [hstep]
        exact h
      obtain ⟨h1, h2⟩ := ih (deliver t ch) hatt
      have hfold : deliverAll t (ch :: rest) = deliverAll (deliver t ch) rest := rfl
      constructor
      · rw [hfold]
        exact h1
      · rw [hfold, h2, hstep]
        simp

theorem tagged_filter_self (target : Nat) (chunks : List String) :
    ((chunks.map (fun ch => (target, ch))).filter (fun q => decide (q.1 = target))).map
      Prod.snd = chunks := by
  induction chunks with
  | nil => rfl
  | cons ch rest ih => simp [ih]

theorem tagged_filter_other (x target : Nat) (hne : x ≠ target) (chunks : List String) :
    (chunks.map (fun ch => (target, ch))).filter (fun q => decide (q.1 = x)) = [] := by
  induction chunks with
  | nil => rfl
  | cons ch rest ih => simp [ih, Ne.symm hne]

theorem receivedBy_deliverAll (t : TerminalHandle) (target x : Nat) (chunks : List String)
    (h : t.attached = some target) :
    receivedBy x (deliverAll t chunks) =
      receivedBy x t ++ (if x = target then chunks else []) := by
  obtain ⟨-, h2⟩ := deliverAll_attached t target chunks h
  unfold receivedBy
  rw [h2, List.filter_append, List.map_append]
  by_cases hx : x = target
  · subst hx
    simp [tagged_filter_self]
  · simp [tagged_filter_other x target hx, hx]

/-- C6: attaching a second, different render target re-binds the stream: the
handle is attached only to the most recent target, and all subsequently
delivered output reaches the new target while the previous target receives
nothing further. -/
theorem attach_rebinds (t : TerminalHandle) (t1 t2 : Nat) (chunks : List String)
    (hne : t1 ≠ t2) :
    (attach (attach t t1) t2).attached = some t2 ∧
    receivedBy t1 (deliverAll (attach (attach t t1) t2) chunks) =
      receivedBy t1 (attach (attach t t1) t2) ∧
    receivedBy t2 (deliverAll (attach (attach t t1) t2) chunks) =
      receivedBy t2 (attach (attach t t1) t2) ++ chunks := by
  refine ⟨rfl, ?_, ?_⟩
  · rw [receivedBy_deliverAll (attach (attach t t1) t2) t2 t1 chunks rfl]
    simp [hne]
  · rw [receivedBy_deliverAll (attach (attach t t1) t2) t2 t2 chunks rfl]
    simp

/-- Witness for C6: with two concrete distinct render targets attached in
sequence, only the second one receives the subsequently delivered chunk. -/
theorem attach_rebinds_witness :
    (0 : Nat) ≠ 1 ∧
    ((attach (attach initialTerminal 0) 1).attached = some 1 ∧
      receivedBy 0 (deliverAll (attach (attach initialTerminal 0) 1) ["hello"]) =
        receivedBy 0 (attach (attach initialTerminal 0) 1) ∧
      receivedBy 1 (deliverAll (attach (attach initialTerminal 0) 1) ["hello"]) =
        receivedBy 1 (attach (attach initialTerminal 0) 1) ++ ["hello"]) :=
  ⟨by decide, attach_rebinds initialTerminal 0 1 ["hello"] (by decide)⟩

/-- C7: attach is idempotent per target: re-attaching the same target leaves
the handle unchanged, and output produced after repeated attach calls is
delivered to that target exactly once per produced chunk — never
duplicated. -/
theorem attach_idempotent (t : TerminalHandle) (target : Nat) (chunks : List String) :
    attach (attach t target) target = attach t target ∧
    receivedBy target (deliverAll (attach (attach t target) target) chunks) =
      receivedBy target t ++ chunks := by
  refine ⟨rfl, ?_⟩
  rw [receivedBy_deliverAll (attach (attach t target) target) target target chunks rfl]
  simp [attach, receivedBy]

/-- C9: delivery preserves the produced sequence exactly: for a handle
attached to a target, pushing the produced chunk sequence delivers precisely
that sequence to the target, in order, with no chunk dropped or reordered. -/
theorem stream_order_preserved (t : TerminalHandle) (target : Nat) (chunks : List String)
    (h : t.attached = some target) :
    receivedBy target (deliverAll t chunks) = receivedBy target t ++ chunks := by
  rw [receivedBy_deliverAll t target target chunks h]
  simp

/-- Witness for C9: an attached concrete handle receives the produced
two-chunk sequence exactly, in order. -/
theorem stream_order_preserved_witness :
    (attach initialTerminal 0).attached = some 0 ∧
    receivedBy 0 (deliverAll (attach initialTerminal 0) ["a", "b"]) =
      receivedBy 0 (attach initialTerminal 0) ++ ["a", "b"] :=
  ⟨rfl, stream_order_preserved (attach initialTerminal 0) 0 ["a", "b"] rfl⟩

/-- Rendered editor view produced by the FileEditor component of
src/src/app/tutorials/CodeEditor.tsx lines 40-58: the CodeMirror value and
the path that its onChange handler writes through. -/
structure EditorView where
  value : String
  onChangePath : String
  deriving DecidableEq

/-- FileEditor component (src/src/app/tutorials/CodeEditor.tsx lines 40-58):
the CodeMirror value is the file's `initialContent` (line 50) and the
onChange handler forwards the edited text into the write capability (lines
53-55), which closes over a fixed path. -/
def FileEditor (file : FileWithContent) (writePath : String) : EditorView :=
  { value := file.initialContent, onChangePath := writePath }

/-- Projection of the files result used on line 27 of
src/src/app/tutorials/CodeEditor.tsx: the success value, or the empty list
while pending or failed. -/
def resultFiles (r : RxResult (List FilePair)) : List FilePair :=
  match r with
  | RxResult.success fs => fs
  | _ => []

/-- CodeEditor component (src/src/app/tutorials/CodeEditor.tsx lines 25-38):
renders one FileEditor per (file, write) pair of the files result. -/
def CodeEditorRender (r : RxResult (List FilePair)) : List EditorView :=
  (resultFiles r).map (fun fw => FileEditor fw.1 fw.2)

/-- C10: editor content flows one way. Writing through a capability never
changes what the editors display (their base value stays the descriptor's
`initialContent`, not the Session's `liveFiles`), and every rendered editor
shows exactly the `initialContent` of a seed file while its onChange handler
writes through that file's path. -/
theorem editor_one_way (s : Session) (p content : String) :
    CodeEditorRender (sessionFilesResult (write s p content).2) =
      CodeEditorRender (sessionFilesResult s) ∧
    ∀ e ∈ CodeEditorRender (sessionFilesResult s),
      ∃ f, f ∈ s.workspace.files ∧ e.value = f.initialContent ∧ e.onChangePath = f.file := by
  constructor
  · cases hs : s.state <;> simp [write, hs, sessionFilesResult]
  · intro e he
    cases hs : s.state with
    | booting => simp [CodeEditorRender, resultFiles, sessionFilesResult, hs] at he
    | failed c => simp [CodeEditorRender, resultFiles, sessionFilesResult, hs] at he
    | ready =>
        have hmem : e ∈ (sessionFiles s.workspace).map (fun fw => FileEditor fw.1 fw.2) := by
          simpa [CodeEditorRender, resultFiles, sessionFilesResult, hs] using he
        obtain ⟨fw, hfw, hfe⟩ := List.mem_map.mp hmem
        obtain ⟨path, hpath, hfind⟩ := List.mem_filterMap.mp hfw
        obtain ⟨f, hfo, hfp⟩ := Option.map_eq_some'.mp hfind
        subst hfp
        subst hfe
        refine ⟨f, List.mem_of_find?_eq_some hfo, rfl, ?_⟩
        have hfile : f.file = path := by
          have h1 := List.find?_some hfo
          simpa using h1
        exact hfile.symm

end Tutorials
